import Mathlib

/-!
Verification of the Cloudinary deletion relay (`index.js`).

The embedding models the request-handling pipeline of the Express server:
JSON values relevant to the handler, the account table parsed from
configuration, `parseFromUrl`, `getCredsForCloud`, the credential fallback
to `DEFAULT_ACCOUNT`, the field derivation/defaulting of `/deleteMedia`,
and the final response mapping (400 validation error, 400 credentials
error, 200 relay, 500 upstream error).

Request fields are modelled as optional strings (the shapes the endpoint
documents), except `secure_url` and `invalidate`, which the handler
inspects as raw JSON values and are therefore modelled as `JsVal`.
The account table is the mapping produced by `JSON.parse` (own keys only),
modelled as an association list; the outbound HTTP call is an oracle
parameter returning either the remote JSON body or an error detail.
-/

namespace Dinar

/-- A JSON-ish JavaScript value, as far as the handler inspects one. -/
inductive JsVal where
  | str (s : String)
  | num (n : Int)
  | bool (b : Bool)
  | null
deriving DecidableEq, Repr

/-- JavaScript truthiness of a `JsVal` (`""`, `0`, `false`, `null` are falsy). -/
def truthy : JsVal → Bool
  | .str s => s != ""
  | .num n => n != 0
  | .bool b => b
  | .null => false

/-- Truthiness of a possibly absent value. -/
def truthyO : Option JsVal → Bool
  | none => false
  | some v => truthy v

/-- Truthiness of a possibly absent string field (absent and `""` are falsy). -/
def truthyS : Option String → Bool
  | none => false
  | some s => s != ""

/-- JavaScript `a || b` on optional string fields. -/
def jsOr (a b : Option String) : Option String :=
  if truthyS a then a else b

/-- Result object of `parseFromUrl`: `{}` is all-fields-absent. -/
structure ParseRes where
  cloud_name : Option String
  resource_type : Option String
  type : Option String
deriving DecidableEq, Repr

/-- Strip an expected literal character sequence from the front of a list. -/
def stripPref : List Char → List Char → Option (List Char)
  | [], l => some l
  | _ :: _, [] => none
  | p :: ps, c :: cs => if p = c then stripPref ps cs else none

/-- The literal part of the regex `res\.cloudinary\.com\/`. -/
def prefChars : List Char :=
  ['r', 'e', 's', '.', 'c', 'l', 'o', 'u', 'd', 'i', 'n', 'a', 'r', 'y', '.', 'c', 'o', 'm', '/']

/-- The run matched by a greedy `[^/]+`: everything up to the next `/`. -/
def takeSeg : List Char → List Char
  | [] => []
  | c :: cs => if c = '/' then [] else c :: takeSeg cs

/-- What remains after that run (starts with `/` when one exists). -/
def dropSeg : List Char → List Char
  | [] => []
  | c :: cs => if c = '/' then c :: cs else dropSeg cs

/-- Tail of the regex after the alternation: `([^/]+)\/`, packaging captures. -/
def finishMatch (cloud : List Char) (rt : String) (r3 : List Char) :
    Option (String × String × String) :=
  let ty := takeSeg r3
  if ty.isEmpty then none
  else
    match dropSeg r3 with
    | '/' :: _ => some (String.mk cloud, rt, String.mk ty)
    | _ => none

/-- One anchored attempt of `res\.cloudinary\.com\/([^/]+)\/(image|video)\/([^/]+)\/`.
`[^/]+` is greedy and cannot cross `/`, and each run is followed by a
mandatory `/` in the pattern, so the backtracking regex admits exactly
this deterministic reading at a given start position. -/
def matchAt (l : List Char) : Option (String × String × String) :=
  match stripPref prefChars l with
  | none => none
  | some r1 =>
    let cloud := takeSeg r1
    if cloud.isEmpty then none
    else
      match dropSeg r1 with
      | '/' :: r2 =>
        match stripPref ['i', 'm', 'a', 'g', 'e', '/'] r2 with
        | some r3 => finishMatch cloud "image" r3
        | none =>
          match stripPref ['v', 'i', 'd', 'e', 'o', '/'] r2 with
          | some r3 => finishMatch cloud "video" r3
          | none => none
      | _ => none

/-- Leftmost-match search, as `String.prototype.match` without `/g`. -/
def scan : List Char → Option (String × String × String)
  | [] => none
  | c :: cs =>
    match matchAt (c :: cs) with
    | some r => some r
    | none => scan cs

/-- `parseFromUrl(secureUrl)`: non-strings and non-matching strings give `{}`. -/
def parseFromUrl (v : JsVal) : ParseRes :=
  match v with
  | .str s =>
    match scan s.data with
    | some (c, rt, ty) => { cloud_name := some c, resource_type := some rt, type := some ty }
    | none => { cloud_name := none, resource_type := none, type := none }
  | _ => { cloud_name := none, resource_type := none, type := none }

/-- Whitespace for JavaScript `String.prototype.trim` (the characters the
modelled requests can contain). -/
def jsWhite (c : Char) : Bool :=
  c = ' ' || c = '\t' || c = '\n' || c = '\r'

/-- `String(public_id).trim()` on the string-valued requests we model. -/
def jsTrim (s : String) : String :=
  String.mk (((s.data.dropWhile jsWhite).reverse.dropWhile jsWhite).reverse)

/-- One value of the parsed `CLOUDINARY_ACCOUNTS_JSON` table; either key may
be missing in the configured JSON object. -/
structure Creds where
  api_key : Option String
  api_secret : Option String
deriving DecidableEq, Repr

/-- `DEFAULT_ACCOUNT`: the three optional environment variables. -/
structure Account where
  cloud_name : Option String
  api_key : Option String
  api_secret : Option String
deriving DecidableEq, Repr

/-- Own-key lookup `ACCOUNTS[cloud_name]` on the parsed table. -/
def findAcct (cn : String) : List (String × Creds) → Option Creds
  | [] => none
  | (k, v) :: rest => if k = cn then some v else findAcct cn rest

/-- `getCredsForCloud(cloud_name)`. -/
def getCredsForCloud (accounts : List (String × Creds)) (dflt : Account)
    (cloud_name : Option String) : Option Account :=
  if truthyS cloud_name = false then none
  else
    let cn := cloud_name.getD ""
    match findAcct cn accounts with
    | some e => some { cloud_name := some cn, api_key := e.api_key, api_secret := e.api_secret }
    | none => if dflt.cloud_name = some cn then some dflt else none

/-- `getCredsForCloud(cloud_name) || (DEFAULT_ACCOUNT.cloud_name ? DEFAULT_ACCOUNT : null)`. -/
def selectCreds (accounts : List (String × Creds)) (dflt : Account)
    (cn : Option String) : Option Account :=
  match getCredsForCloud accounts dflt cn with
  | some c => some c
  | none => if truthyS dflt.cloud_name then some dflt else none

/-- Negation of `!creds?.cloud_name || !creds?.api_key || !creds?.api_secret`. -/
def usable (a : Account) : Bool :=
  truthyS a.cloud_name && truthyS a.api_key && truthyS a.api_secret

/-- The `/deleteMedia` request body, restricted to the fields the handler reads. -/
structure Req where
  public_id : Option String
  cloud_name : Option String
  secure_url : Option JsVal
  resource_type : Option String
  type : Option String
  invalidate : Option JsVal
deriving DecidableEq, Repr

/-- The derivation step: fill falsy fields from `parseFromUrl(secure_url)`
when some field is falsy and `secure_url` is truthy. Returns the
post-derivation `(cloud_name, resource_type, type)`. -/
def deriveFields (req : Req) : Option String × Option String × Option String :=
  if ((!truthyS req.cloud_name || !truthyS req.resource_type || !truthyS req.type)
      && truthyO req.secure_url) then
    let p := parseFromUrl (req.secure_url.getD JsVal.null)
    (jsOr req.cloud_name p.cloud_name,
     jsOr req.resource_type p.resource_type,
     jsOr req.type p.type)
  else
    (req.cloud_name, req.resource_type, req.type)

/-- The defaulting step: `resource_type || "image"`, `type || "upload"`,
`invalidate !== false`; gives the normalized values sent upstream. -/
def normFields (req : Req) : String × String × Bool :=
  let f := deriveFields req
  ((jsOr f.2.1 (some "image")).getD "",
   (jsOr f.2.2 (some "upload")).getD "",
   req.invalidate != some (JsVal.bool false))

/-- The 400 body produced when no usable credentials resolve. -/
def credsErrMsg : String :=
  "Missing credentials. Provide cloud_name or secure_url and configure CLOUDINARY_ACCOUNTS_JSON or default envs."

/-- The outbound Admin-API deletion call the handler assembles. -/
structure CallSpec where
  cloud_name : String
  resource_type : String
  type : String
  public_ids : List String
  invalidate : Bool
  api_key : String
  api_secret : String
deriving DecidableEq, Repr

/-- The URL the handler interpolates for the outbound call. -/
def endpointOf (c : CallSpec) : String :=
  "https://api.cloudinary.com/v1_1/" ++ c.cloud_name ++ "/resources/" ++
    c.resource_type ++ "/" ++ c.type

/-- What the handler decides to do before any network traffic. -/
inductive Plan where
  | badRequest (msg : String)
  | call (c : CallSpec)
deriving DecidableEq, Repr

/-- The `/deleteMedia` handler up to (and excluding) the outbound call. -/
def planRequest (accounts : List (String × Creds)) (dflt : Account) (req : Req) : Plan :=
  if truthyS req.public_id = false then Plan.badRequest "public_id is required"
  else
    let n := normFields req
    match selectCreds accounts dflt (deriveFields req).1 with
    | none => Plan.badRequest credsErrMsg
    | some c =>
      if usable c then
        Plan.call
          { cloud_name := c.cloud_name.getD ""
            resource_type := n.1
            type := n.2.1
            public_ids := [jsTrim (req.public_id.getD "")]
            invalidate := n.2.2
            api_key := c.api_key.getD ""
            api_secret := c.api_secret.getD "" }
      else Plan.badRequest credsErrMsg

/-- A JSON response body: either `{error: msg}` or a relayed JSON document. -/
inductive RespBody where
  | errorJson (msg : String)
  | json (data : String)
deriving DecidableEq, Repr

/-- An HTTP response of the handler. -/
structure HttpResp where
  status : Nat
  body : RespBody
deriving DecidableEq, Repr

/-- The full handler: the plan, then the outbound call through the
`net` oracle (`.error` = transport or remote-side failure, carrying the
detail `err?.response?.data || err.message`). Returns the response and
what was written to the server log. -/
def handle (accounts : List (String × Creds)) (dflt : Account) (req : Req)
    (net : CallSpec → Except String String) : HttpResp × Option String :=
  match planRequest accounts dflt req with
  | .badRequest m => ({ status := 400, body := .errorJson m }, none)
  | .call c =>
    match net c with
    | .ok d => ({ status := 200, body := .json d }, none)
    | .error e => ({ status := 500, body := .errorJson "Failed to delete media" }, some e)

/-- Construction of `ACCOUNTS`: `JSON.parse(process.env.CLOUDINARY_ACCOUNTS_JSON || "{}")`
inside `try/catch`, with the catch returning `{}`. `jparse` stands for
`JSON.parse` restricted to table-shaped documents (`none` = throw). -/
def mkAccounts (jparse : String → Option (List (String × Creds)))
    (env : Option String) : List (String × Creds) :=
  let cfg := match env with
    | some s => if s = "" then "\x7b\x7d" else s
    | none => "\x7b\x7d"
  match jparse cfg with
  | some t => t
  | none => []

/-! Concrete configurations, requests and oracles used to instantiate the
theorems below on closed inputs. -/

/-- No default account configured (all three env variables unset). -/
def dflt0 : Account := { cloud_name := none, api_key := none, api_secret := none }

/-- A fully configured default account. -/
def dfltW : Account := { cloud_name := some "dflt", api_key := some "DK", api_secret := some "DS" }

/-- A one-entry account table for tenant `demo`. -/
def tableW : List (String × Creds) := [("demo", { api_key := some "K", api_secret := some "S" })]

/-- A table whose only key is the empty string. -/
def tableEmptyKey : List (String × Creds) := [("", { api_key := some "k", api_secret := some "s" })]

/-- A table that does not contain the tenants the requests below name. -/
def tableO : List (String × Creds) := [("other", { api_key := some "K", api_secret := some "S" })]

/-- Network oracle: the remote succeeds. -/
def netOk : CallSpec → Except String String := fun _ => Except.ok "deleted"

/-- Network oracle: the remote fails with a detailed error body. -/
def netFail : CallSpec → Except String String := fun _ => Except.error "remote detail"

/-- A well-formed video URL on the real Cloudinary host. -/
def urlVideo : String := "https://res.cloudinary.com/demo/video/upload/v1/a.mp4"

/-- A request whose `public_id` is whitespace only (empty after trimming). -/
def reqPidWs : Req :=
  { public_id := some " ", cloud_name := none, secure_url := none,
    resource_type := none, type := none, invalidate := none }

/-- A request with no `public_id` but every other field populated. -/
def reqOther : Req :=
  { public_id := none, cloud_name := some "x", secure_url := some (.str urlVideo),
    resource_type := some "raw", type := some "private", invalidate := some (.bool true) }

/-- The spec scenario: body `{public_id:"a/b"}` and nothing else. -/
def reqC3 : Req :=
  { public_id := some "a/b", cloud_name := none, secure_url := none,
    resource_type := none, type := none, invalidate := none }

/-- A request supplying `resource_type` as the empty string next to a video URL. -/
def reqC4 : Req :=
  { public_id := some "a", cloud_name := none, secure_url := some (.str urlVideo),
    resource_type := some "", type := none, invalidate := none }

/-- A request with a truthy `cloud_name` and `type` but no `resource_type`. -/
def reqC4w : Req :=
  { public_id := some "a", cloud_name := some "sup", secure_url := some (.str urlVideo),
    resource_type := none, type := some "private", invalidate := none }

/-- A plain deletion request for tenant `demo`. -/
def reqC5 : Req :=
  { public_id := some "a/b", cloud_name := some "demo", secure_url := none,
    resource_type := none, type := none, invalidate := none }

/-- The outbound call `reqC5` produces against `tableW`. -/
def c5spec : CallSpec :=
  { cloud_name := "demo", resource_type := "image", type := "upload",
    public_ids := ["a/b"], invalidate := true, api_key := "K", api_secret := "S" }

/-- A request naming a tenant that matches neither `tableO` nor `dfltW`. -/
def reqC10 : Req :=
  { public_id := some "p", cloud_name := some "ghost", secure_url := none,
    resource_type := none, type := none, invalidate := none }

/-- A JSON parser stub accepting only the empty object document. -/
def jparse0 : String → Option (List (String × Creds)) :=
  fun s => if s = "\x7b\x7d" then some [] else none

/-! Helper lemmas. -/

theorem data_app (a b : String) : (a ++ b).data = a.data ++ b.data := by
  cases a; cases b; rfl

theorem data_mk (l : List Char) : (String.mk l).data = l := rfl

theorem stripPref_cons_ne (p : Char) (ps : List Char) (c : Char) (cs : List Char)
    (h : p ≠ c) : stripPref (p :: ps) (c :: cs) = none := by
  simp [stripPref, h]

theorem matchAt_ne_r (c : Char) (cs : List Char) (h : c ≠ 'r') : matchAt (c :: cs) = none := by
  unfold matchAt prefChars
  rw [stripPref_cons_ne 'r' _ c _ (Ne.symm h)]

theorem scan_step (c : Char) (cs : List Char) (hm : matchAt (c :: cs) = none) :
    scan (c :: cs) = scan cs := by
  conv_lhs => rw [scan]
  rw [hm]

theorem scan_found (c : Char) (cs : List Char) (res : String × String × String)
    (hm : matchAt (c :: cs) = some res) : scan (c :: cs) = some res := by
  conv_lhs => rw [scan]
  rw [hm]

theorem takeSeg_full (t r : List Char) (h : t.all (fun c => c != '/') = true) :
    takeSeg (t ++ '/' :: r) = t := by
  induction t with
  | nil => rfl
  | cons a l ih =>
    rw [List.all_cons, Bool.and_eq_true] at h
    have ha : a ≠ '/' := by simpa using h.1
    simp [takeSeg, ha, ih h.2]

theorem dropSeg_full (t r : List Char) (h : t.all (fun c => c != '/') = true) :
    dropSeg (t ++ '/' :: r) = '/' :: r := by
  induction t with
  | nil => rfl
  | cons a l ih =>
    rw [List.all_cons, Bool.and_eq_true] at h
    have ha : a ≠ '/' := by simpa using h.1
    simp [dropSeg, ha, ih h.2]

theorem matchAt_main (t r : List Char) (ht : t ≠ [])
    (h : t.all (fun c => c != '/') = true) :
    matchAt ('r' :: 'e' :: 's' :: '.' :: 'c' :: 'l' :: 'o' :: 'u' :: 'd' :: 'i' :: 'n' :: 'a' :: 'r' :: 'y' :: '.' :: 'c' :: 'o' :: 'm' :: '/' ::
      (t ++ '/' :: 'i' :: 'm' :: 'a' :: 'g' :: 'e' :: '/' :: 'u' :: 'p' :: 'l' :: 'o' :: 'a' :: 'd' :: '/' ::r)) =
      some (String.mk t, "image", "upload") := by
  have hstrip : stripPref prefChars
      ('r' :: 'e' :: 's' :: '.' :: 'c' :: 'l' :: 'o' :: 'u' :: 'd' :: 'i' :: 'n' :: 'a' :: 'r' :: 'y' :: '.' :: 'c' :: 'o' :: 'm' :: '/' ::
        (t ++ '/' :: 'i' :: 'm' :: 'a' :: 'g' :: 'e' :: '/' :: 'u' :: 'p' :: 'l' :: 'o' :: 'a' :: 'd' :: '/' ::r)) =
      some (t ++ '/' :: 'i' :: 'm' :: 'a' :: 'g' :: 'e' :: '/' :: 'u' :: 'p' :: 'l' :: 'o' :: 'a' :: 'd' :: '/' ::r) := rfl
  have hie : t.isEmpty = false := by
    cases t with
    | nil => exact absurd rfl ht
    | cons a l => rfl
  unfold matchAt
  rw [hstrip]
  dsimp only
  rw [takeSeg_full t _ h, dropSeg_full t _ h, hie]
  rfl

theorem derive_keeps_truthy (req : Req) (h : truthyS req.cloud_name = true) :
    (deriveFields req).1 = req.cloud_name := by
  unfold deriveFields
  split
  · simp [jsOr, h]
  · rfl

theorem handle_bad (accounts : List (String × Creds)) (dflt : Account) (req : Req)
    (net : CallSpec → Except String String) (m : String)
    (h : planRequest accounts dflt req = Plan.badRequest m) :
    handle accounts dflt req net = ({ status := 400, body := .errorJson m }, none) := by
  unfold handle
  rw [h]

theorem plan_pid_fail (accounts : List (String × Creds)) (dflt : Account) (req : Req)
    (h : truthyS req.public_id = false) :
    planRequest accounts dflt req = Plan.badRequest "public_id is required" := by
  unfold planRequest
  rw [h]
  simp

theorem plan_creds_fail (accounts : List (String × Creds)) (dflt : Account) (req : Req)
    (hpid : truthyS req.public_id = true)
    (hsel : selectCreds accounts dflt (deriveFields req).1 = none ∨
            ∃ c, selectCreds accounts dflt (deriveFields req).1 = some c ∧ usable c = false) :
    planRequest accounts dflt req = Plan.badRequest credsErrMsg := by
  rcases hsel with h | ⟨c, hc, hu⟩
  · simp [planRequest, hpid, h]
  · simp [planRequest, hpid, hc, hu]

/-! Claim C1. -/

/-- C1, counterexample: a whitespace-only `public_id` is non-empty before
trimming, hence truthy, so validation passes; with no credentials configured
the response is the 400 credentials error, not `public_id is required` —
even though this `public_id` is empty after trimming. -/
theorem c1_counterexample :
    jsTrim (reqPidWs.public_id.getD "") = "" ∧
    (handle [] dflt0 reqPidWs netOk).1.body ≠ RespBody.errorJson "public_id is required" := by
  decide

/-- C1, amended: for every request whose `public_id` is missing or is the
empty string (falsy before trimming), the handler returns 400 with body
`{error: "public_id is required"}` regardless of all other fields; a
whitespace-only `public_id` is not rejected, since the handler trims only
after this check. -/
theorem c1_theorem (accounts : List (String × Creds)) (dflt : Account) (req : Req)
    (net : CallSpec → Except String String)
    (h : req.public_id = none ∨ req.public_id = some "") :
    handle accounts dflt req net =
      ({ status := 400, body := RespBody.errorJson "public_id is required" }, none) := by
  have hf : truthyS req.public_id = false := by
    rcases h with h | h <;> rw [h] <;> rfl
  exact handle_bad accounts dflt req net _ (plan_pid_fail accounts dflt req hf)

/-- C1, witness: a request with no `public_id` but all other fields set is
rejected with the fixed message. -/
theorem c1_witness :
    handle [] dflt0 reqOther netOk =
      ({ status := 400, body := RespBody.errorJson "public_id is required" }, none) :=
  c1_theorem [] dflt0 reqOther netOk (Or.inl rfl)

/-! Claim C2. -/

/-- C2, counterexample: the empty string is a valid JSON object key, so it
can be present in the account table; yet `getCredsForCloud("")` returns
`null` (the `!cloud_name` guard fires first), not that entry's credentials. -/
theorem c2_counterexample :
    getCredsForCloud tableEmptyKey dflt0 (some "") = none ∧
    (none : Option Account) ≠
      some { cloud_name := some "", api_key := some "k", api_secret := some "s" } := by
  decide

/-- C2, amended: for every non-empty tenant_id present in the account table,
resolution returns that entry's credentials (the table takes precedence over
the DefaultAccount); for a non-empty tenant_id equal to the DefaultAccount's
tenant_id and absent from the table, resolution returns the DefaultAccount;
for a tenant_id matching neither, it returns null; an empty or absent
tenant_id always resolves to null, even when the empty string is a table
key. Matching is exact string match only. -/
theorem c2_theorem (accounts : List (String × Creds)) (dflt : Account) (cn : String) :
    (cn ≠ "" → ∀ e, findAcct cn accounts = some e →
       getCredsForCloud accounts dflt (some cn) =
         some { cloud_name := some cn, api_key := e.api_key, api_secret := e.api_secret }) ∧
    (cn ≠ "" → findAcct cn accounts = none → dflt.cloud_name = some cn →
       getCredsForCloud accounts dflt (some cn) = some dflt) ∧
    (findAcct cn accounts = none → dflt.cloud_name ≠ some cn →
       getCredsForCloud accounts dflt (some cn) = none) ∧
    getCredsForCloud accounts dflt (some "") = none ∧
    getCredsForCloud accounts dflt none = none := by
  refine ⟨?_, ?_, ?_, ?_, rfl⟩
  · intro hne e he
    simp [getCredsForCloud, truthyS, hne, he]
  · intro hne hfind hdflt
    simp [getCredsForCloud, truthyS, hne, hfind, hdflt]
  · intro hfind hdflt
    by_cases hcn : cn = ""
    · subst hcn
      simp [getCredsForCloud, truthyS]
    · simp [getCredsForCloud, truthyS, hcn, hfind, hdflt]
  · simp [getCredsForCloud, truthyS]

/-- C2, witness: with the `demo` entry in the table, resolution for `demo`
returns exactly that entry's credentials. -/
theorem c2_witness :
    getCredsForCloud tableW dfltW (some "demo") =
      some { cloud_name := some "demo", api_key := some "K", api_secret := some "S" } :=
  (c2_theorem tableW dfltW "demo").1 (by decide)
    { api_key := some "K", api_secret := some "S" } rfl

/-! Claim C3. -/

/-- C3: for every request that passes validation, if the tenant lookup fails
and a DefaultAccount is configured (its tenant_id is truthy), the selected
account is the DefaultAccount; and whenever the finally selected account is
absent or unusable (missing any of tenant_id, api_key, api_secret), the
handler answers 400 with the credentials-error body and performs no outbound
call — the response is the same for every network oracle. -/
theorem c3_theorem (accounts : List (String × Creds)) (dflt : Account) (req : Req)
    (hpid : truthyS req.public_id = true) :
    (getCredsForCloud accounts dflt (deriveFields req).1 = none →
       truthyS dflt.cloud_name = true →
       selectCreds accounts dflt (deriveFields req).1 = some dflt) ∧
    ((selectCreds accounts dflt (deriveFields req).1 = none ∨
        ∃ c, selectCreds accounts dflt (deriveFields req).1 = some c ∧ usable c = false) →
       ∀ net, handle accounts dflt req net =
         ({ status := 400, body := RespBody.errorJson credsErrMsg }, none)) := by
  constructor
  · intro hg hd
    simp [selectCreds, hg, hd]
  · intro hsel net
    exact handle_bad accounts dflt req net _ (plan_creds_fail accounts dflt req hpid hsel)

/-- C3, witness: the spec scenario — body `{public_id:"a/b"}`, empty account
table, no DefaultAccount — yields the 400 credentials error. -/
theorem c3_witness :
    handle [] dflt0 reqC3 netOk =
      ({ status := 400, body := RespBody.errorJson credsErrMsg }, none) :=
  (c3_theorem [] dflt0 reqC3 rfl).2 (Or.inl rfl) netOk

/-! Claim C4. -/

/-- C4, counterexample: `resource_type` is explicitly supplied as the empty
string next to a video URL, yet derivation overwrites it with the parsed
`"video"` — an explicitly supplied field does not keep its supplied value,
and the set of filled fields is not exactly the missing ones. -/
theorem c4_counterexample :
    reqC4.resource_type = some "" ∧
    (deriveFields reqC4).2.1 = some "video" ∧
    (deriveFields reqC4).2.1 ≠ reqC4.resource_type := by
  decide

/-- C4, amended: when at least one of tenant_id, resource_type, access_type
is falsy (missing or empty string) and a truthy resource_url is present, the
handler parses the resource_url and fills from the parse result exactly the
falsy fields; every field supplied with a non-empty value keeps its supplied
value, while a field supplied as the empty string is treated as missing and
is replaced by the derived value. -/
theorem c4_theorem (req : Req) (v : JsVal)
    (hsv : req.secure_url = some v) (htv : truthy v = true)
    (htrig : (!truthyS req.cloud_name || !truthyS req.resource_type || !truthyS req.type) = true) :
    (truthyS req.cloud_name = true → (deriveFields req).1 = req.cloud_name) ∧
    (truthyS req.cloud_name = false → (deriveFields req).1 = (parseFromUrl v).cloud_name) ∧
    (truthyS req.resource_type = true → (deriveFields req).2.1 = req.resource_type) ∧
    (truthyS req.resource_type = false →
       (deriveFields req).2.1 = (parseFromUrl v).resource_type) ∧
    (truthyS req.type = true → (deriveFields req).2.2 = req.type) ∧
    (truthyS req.type = false → (deriveFields req).2.2 = (parseFromUrl v).type) := by
  have hcond : ((!truthyS req.cloud_name || !truthyS req.resource_type || !truthyS req.type)
      && truthyO (some v)) = true := by
    rw [htrig]
    simp [truthyO, htv]
  have hder : deriveFields req =
      (jsOr req.cloud_name (parseFromUrl v).cloud_name,
       jsOr req.resource_type (parseFromUrl v).resource_type,
       jsOr req.type (parseFromUrl v).type) := by
    unfold deriveFields
    rw [hsv]
    simp only [hcond, Option.getD_some]
    simp
  refine ⟨?_, ?_, ?_, ?_, ?_, ?_⟩ <;> intro hf <;> rw [hder] <;> simp [jsOr, hf]

/-- C4, witness: with `cloud_name` and `type` supplied non-empty and
`resource_type` missing, derivation from the video URL fills only
`resource_type` and keeps the supplied fields. -/
theorem c4_witness :
    (deriveFields reqC4w).1 = reqC4w.cloud_name ∧
    (deriveFields reqC4w).2.1 = (parseFromUrl (JsVal.str urlVideo)).resource_type ∧
    (deriveFields reqC4w).2.2 = reqC4w.type :=
  ⟨(c4_theorem reqC4w (JsVal.str urlVideo) rfl rfl rfl).1 rfl,
   (c4_theorem reqC4w (JsVal.str urlVideo) rfl rfl rfl).2.2.2.1 rfl,
   (c4_theorem reqC4w (JsVal.str urlVideo) rfl rfl rfl).2.2.2.2.1 rfl⟩

/-! Claim C5. -/

/-- C5: after derivation, `resource_type` defaults to `"image"` when absent
and `type` (access_type) defaults to `"upload"` when absent; the invalidate
flag is `false` exactly when the request carries the explicit boolean
`false`, and `true` for any other value or when omitted; and whenever the
handler dispatches, the outbound call carries precisely these normalized
values. -/
theorem c5_theorem (req : Req) :
    ((deriveFields req).2.1 = none → (normFields req).1 = "image") ∧
    ((deriveFields req).2.2 = none → (normFields req).2.1 = "upload") ∧
    (req.invalidate = some (JsVal.bool false) → (normFields req).2.2 = false) ∧
    (req.invalidate ≠ some (JsVal.bool false) → (normFields req).2.2 = true) ∧
    (∀ accounts dflt c, planRequest accounts dflt req = Plan.call c →
       c.resource_type = (normFields req).1 ∧ c.type = (normFields req).2.1 ∧
       c.invalidate = (normFields req).2.2) := by
  refine ⟨?_, ?_, ?_, ?_, ?_⟩
  · intro h
    simp [normFields, h, jsOr, truthyS]
  · intro h
    simp [normFields, h, jsOr, truthyS]
  · intro h
    simp [normFields, h]
  · intro h
    simp [normFields, h]
  · intro accounts dflt c h
    simp only [planRequest] at h
    split at h
    · exact Plan.noConfusion h
    · split at h
      · exact Plan.noConfusion h
      · split at h
        · cases h
          exact ⟨rfl, rfl, rfl⟩
        · exact Plan.noConfusion h

/-- C5, witness: `reqC5` omits resource_type, type and invalidate; the
normalized values are `"image"`, `"upload"` and `true`, and the dispatched
call carries them. -/
theorem c5_witness :
    (normFields reqC5).1 = "image" ∧ (normFields reqC5).2.1 = "upload" ∧
    (normFields reqC5).2.2 = true ∧
    (c5spec.resource_type = (normFields reqC5).1 ∧ c5spec.type = (normFields reqC5).2.1 ∧
      c5spec.invalidate = (normFields reqC5).2.2) :=
  ⟨(c5_theorem reqC5).1 rfl, (c5_theorem reqC5).2.1 rfl,
   (c5_theorem reqC5).2.2.2.1 (by decide),
   (c5_theorem reqC5).2.2.2.2 tableW dflt0 c5spec (by decide)⟩

/-! Claim C6. -/

/-- C6, counterexample: the regex searches for the literal substring
`res.cloudinary.com/`, which this URL of the claimed shape on the host
`example.com` does not contain — nothing is extracted, contrary to the
claim's "any host". -/
theorem c6_counterexample :
    parseFromUrl (JsVal.str "https://example.com/demo/image/upload/v1/a.jpg") =
      { cloud_name := none, resource_type := none, type := none } ∧
    ({ cloud_name := none, resource_type := none, type := none } : ParseRes) ≠
      { cloud_name := some "demo", resource_type := some "image", type := some "upload" } := by
  decide

/-- C6, amended: for every resource URL of the form
`https://res.cloudinary.com/<tenant>/image/upload/...` — the host fixed to
`res.cloudinary.com`, the tenant a non-empty segment without `/` — the
parser extracts tenant_id `<tenant>`, resource_type `"image"` and
access_type `"upload"`. (The regex is an unanchored substring search for
`res.cloudinary.com/...`, so extraction on other hosts is not guaranteed
in general; on the `example.com` URL of the counterexample it fails.) -/
theorem c6_theorem (tenant rest : String) (h1 : tenant ≠ "")
    (h2 : tenant.data.all (fun c => c != '/') = true) :
    parseFromUrl (JsVal.str ("https://res.cloudinary.com/" ++ tenant ++ "/image/upload/" ++ rest)) =
      { cloud_name := some tenant, resource_type := some "image", type := some "upload" } := by
  obtain ⟨t⟩ := tenant
  obtain ⟨r⟩ := rest
  have htne : t ≠ [] := by
    intro hh
    subst hh
    exact h1 rfl
  have hd : ("https://res.cloudinary.com/" ++ String.mk t ++ "/image/upload/" ++ String.mk r).data =
      'h' :: 't' :: 't' :: 'p' :: 's' :: ':' :: '/' :: '/' :: 'r' :: 'e' :: 's' :: '.' :: 'c' :: 'l' :: 'o' :: 'u' :: 'd' :: 'i' :: 'n' :: 'a' :: 'r' :: 'y' :: '.' :: 'c' :: 'o' :: 'm' :: '/' ::
        (t ++ '/' :: 'i' :: 'm' :: 'a' :: 'g' :: 'e' :: '/' :: 'u' :: 'p' :: 'l' :: 'o' :: 'a' :: 'd' :: '/' ::r) := by
    simp only [data_app, data_mk, List.append_assoc]
    rfl
  show parseFromUrl (JsVal.str ("https://res.cloudinary.com/" ++ String.mk t ++ "/image/upload/" ++ String.mk r)) = _
  unfold parseFromUrl
  dsimp only
  rw [hd]
  rw [scan_step 'h' _ (matchAt_ne_r 'h' _ (by decide))]
  rw [scan_step 't' _ (matchAt_ne_r 't' _ (by decide))]
  rw [scan_step 't' _ (matchAt_ne_r 't' _ (by decide))]
  rw [scan_step 'p' _ (matchAt_ne_r 'p' _ (by decide))]
  rw [scan_step 's' _ (matchAt_ne_r 's' _ (by decide))]
  rw [scan_step ':' _ (matchAt_ne_r ':' _ (by decide))]
  rw [scan_step '/' _ (matchAt_ne_r '/' _ (by decide))]
  rw [scan_step '/' _ (matchAt_ne_r '/' _ (by decide))]
  rw [scan_found _ _ _ (matchAt_main t r htne h2)]

/-- C6, witness: the amended statement at the concrete URL
`https://res.cloudinary.com/demo/image/upload/v1/a.jpg`. -/
theorem c6_witness :
    parseFromUrl (JsVal.str ("https://res.cloudinary.com/" ++ "demo" ++ "/image/upload/" ++ "v1/a.jpg")) =
      { cloud_name := some "demo", resource_type := some "image", type := some "upload" } :=
  c6_theorem "demo" "v1/a.jpg" (by decide) (by decide)

/-! Claim C7. -/

/-- C7: for every input on which the pattern does not match — every
non-string value, and every string the scan rejects — the parser returns
the empty result with all three fields absent (it is a total function, so
no exception is possible); and a caller deriving from such a value leaves
its absent fields absent, to be filled by the defaulting step. -/
theorem c7_theorem (v : JsVal) (hnm : ∀ s, v = JsVal.str s → scan s.data = none) :
    parseFromUrl v = { cloud_name := none, resource_type := none, type := none } ∧
    ∀ req : Req, req.secure_url = some v →
      (req.cloud_name = none → (deriveFields req).1 = none) ∧
      (req.resource_type = none → (deriveFields req).2.1 = none) ∧
      (req.type = none → (deriveFields req).2.2 = none) := by
  have hp : parseFromUrl v = { cloud_name := none, resource_type := none, type := none } := by
    cases v with
    | str s => simp [parseFromUrl, hnm s rfl]
    | num n => rfl
    | bool b => rfl
    | null => rfl
  refine ⟨hp, ?_⟩
  intro req hsv
  unfold deriveFields
  rw [hsv]
  split
  · refine ⟨?_, ?_, ?_⟩ <;> intro hf <;>
      simp [Option.getD_some, hp, jsOr, hf, truthyS]
  · refine ⟨?_, ?_, ?_⟩ <;> intro hf <;> simp [hf]

/-- C7, witness: a string that does not match, and a non-string, both give
the empty result; deriving from the non-matching string leaves the missing
fields of `reqC3`-like requests untouched. -/
theorem c7_witness :
    parseFromUrl (JsVal.str "https://example.org/x.png") =
      { cloud_name := none, resource_type := none, type := none } ∧
    ∀ req : Req, req.secure_url = some (JsVal.str "https://example.org/x.png") →
      (req.cloud_name = none → (deriveFields req).1 = none) ∧
      (req.resource_type = none → (deriveFields req).2.1 = none) ∧
      (req.type = none → (deriveFields req).2.2 = none) :=
  c7_theorem (JsVal.str "https://example.org/x.png")
    (fun s hs => by cases hs; decide)

/-! Claim C8. -/

/-- C8: whenever the handler dispatches and the outbound call fails —
transport error or remote-side error response, both surfacing as the oracle
error with the logged detail `err?.response?.data || err.message` — the
response is exactly status 500 with body `{error: "Failed to delete media"}`,
and the detail goes to the server log only; the body is a fixed constant, so
the remote's detail can never appear in the response payload. -/
theorem c8_theorem (accounts : List (String × Creds)) (dflt : Account) (req : Req)
    (net : CallSpec → Except String String) (c : CallSpec) (e : String)
    (hplan : planRequest accounts dflt req = Plan.call c)
    (hnet : net c = Except.error e) :
    handle accounts dflt req net =
      ({ status := 500, body := RespBody.errorJson "Failed to delete media" }, some e) := by
  unfold handle
  rw [hplan]
  dsimp only
  rw [hnet]

/-- C8, witness: the `demo` request dispatched against the failing oracle
returns the fixed 500 body and logs the remote detail. -/
theorem c8_witness :
    handle tableW dflt0 reqC5 netFail =
      ({ status := 500, body := RespBody.errorJson "Failed to delete media" },
        some "remote detail") :=
  c8_theorem tableW dflt0 reqC5 netFail c5spec "remote detail" (by decide) rfl

/-! Claim C9. -/

/-- C9: for every configuration string that fails to parse as JSON, and for
an absent (or empty, hence falsy) configuration string, the account table is
constructed as the empty table — the parse failure is caught, not
propagated — and credential resolution then behaves exactly as over the
empty table, relying solely on the DefaultAccount if one is configured. -/
theorem c9_theorem (jparse : String → Option (List (String × Creds))) (env : Option String)
    (hbase : jparse "\x7b\x7d" = some [])
    (hfail : ∀ s, env = some s → s ≠ "" → jparse s = none) :
    mkAccounts jparse env = [] ∧
    ∀ dflt cn, getCredsForCloud (mkAccounts jparse env) dflt cn =
      getCredsForCloud [] dflt cn := by
  have hmk : mkAccounts jparse env = [] := by
    cases env with
    | none => simp [mkAccounts, hbase]
    | some s =>
      by_cases hse : s = ""
      · subst hse
        simp [mkAccounts, hbase]
      · simp [mkAccounts, hse, hfail s rfl hse]
  exact ⟨hmk, fun dflt cn => by rw [hmk]⟩

/-- C9, witness: a parser that accepts only the empty object document,
applied to the unparseable configuration string `not json`, yields the
empty table, and resolution over it equals resolution over the empty
table. -/
theorem c9_witness :
    mkAccounts jparse0 (some "not json") = [] ∧
    ∀ dflt cn, getCredsForCloud (mkAccounts jparse0 (some "not json")) dflt cn =
      getCredsForCloud [] dflt cn :=
  c9_theorem jparse0 (some "not json") rfl
    (fun s hs _ => by cases hs; rfl)

/-! Claim C10. -/

/-- C10: for every request supplying a tenant_id that matches neither the
account table nor the DefaultAccount's tenant_id, when a fully configured
DefaultAccount exists the relay still dispatches, using the DefaultAccount,
and the outbound endpoint is addressed with the DefaultAccount's tenant_id
rather than the tenant_id the caller supplied — the deletion is attempted
against a different tenant than requested. -/
theorem c10_theorem (accounts : List (String × Creds)) (dflt : Account) (req : Req)
    (cn dc : String)
    (hpid : truthyS req.public_id = true)
    (hcn : req.cloud_name = some cn) (hcne : cn ≠ "")
    (hfind : findAcct cn accounts = none)
    (hdc : dflt.cloud_name = some dc) (hdcne : dc ≠ "") (hdiff : dc ≠ cn)
    (hk : truthyS dflt.api_key = true) (hs : truthyS dflt.api_secret = true) :
    ∃ c, planRequest accounts dflt req = Plan.call c ∧ c.cloud_name = dc ∧ c.cloud_name ≠ cn ∧
      endpointOf c = "https://api.cloudinary.com/v1_1/" ++ dc ++ "/resources/" ++
        c.resource_type ++ "/" ++ c.type := by
  have hct : truthyS req.cloud_name = true := by
    rw [hcn]
    simp [truthyS, hcne]
  have hder : (deriveFields req).1 = some cn := by
    rw [derive_keeps_truthy req hct, hcn]
  have hg : getCredsForCloud accounts dflt (some cn) = none := by
    simp [getCredsForCloud, truthyS, hcne, hfind, hdc, hdiff]
  have hsel : selectCreds accounts dflt (deriveFields req).1 = some dflt := by
    rw [hder]
    simp [selectCreds, hg, truthyS, hdc, hdcne]
  have hus : usable dflt = true := by
    unfold usable
    rw [hdc, hk, hs]
    simp [truthyS, hdcne]
  have hplan : planRequest accounts dflt req = Plan.call
      { cloud_name := dflt.cloud_name.getD "", resource_type := (normFields req).1,
        type := (normFields req).2.1, public_ids := [jsTrim (req.public_id.getD "")],
        invalidate := (normFields req).2.2, api_key := dflt.api_key.getD "",
        api_secret := dflt.api_secret.getD "" } := by
    simp [planRequest, hpid, hsel, hus]
  refine ⟨_, hplan, ?_, ?_, ?_⟩
  · dsimp only
    rw [hdc]
    rfl
  · dsimp only
    rw [hdc]
    exact hdiff
  · dsimp only [endpointOf]
    rw [hdc]
    rfl

/-- C10, witness: tenant `ghost` is in neither `tableO` nor `dfltW`; the
dispatched call is addressed to `dflt`, not `ghost`. -/
theorem c10_witness :
    ∃ c, planRequest tableO dfltW reqC10 = Plan.call c ∧ c.cloud_name = "dflt" ∧
      c.cloud_name ≠ "ghost" ∧
      endpointOf c = "https://api.cloudinary.com/v1_1/" ++ "dflt" ++ "/resources/" ++
        c.resource_type ++ "/" ++ c.type :=
  c10_theorem tableO dfltW reqC10 "ghost" "dflt" rfl rfl (by decide) rfl rfl
    (by decide) (by decide) rfl rfl

end Dinar
